import Mathlib

/-!
Shallow embedding of the TRST insurance-plan generator (app.py,
calculation_logic.py, report_utils.py) and verification of its
specification.

Modelling conventions:
* Spreadsheet cell values (`openpyxl` cell `.value`) are `PyVal`:
  `none` (empty cell), a number, or a string.
* Python `float`/`int` arithmetic is modelled over `ℚ`/`ℤ`.
* Filesystem and subprocess effects are modelled by explicit environment
  records (`ScenarioEnv`, `ConvAttempt`, ...) consulted exactly where the
  source consults the outside world.
* User-visible `st.error` calls are modelled as `Err` values collected in a
  list; `st.warning` calls in the result extractor as `RWarn` values.
-/

namespace Trust

/-- Value held by a spreadsheet cell, as seen through openpyxl:
an empty cell reads as Python `None`, otherwise a number or a string. -/
inductive PyVal where
  | none
  | num (q : ℚ)
  | str (s : String)
deriving DecidableEq, Repr

/-- Worksheet model: a map from cell reference (for example "G74") to the
cell's value; `Option.none` models a `KeyError` on access. -/
structure Sheet where
  cells : String → Option PyVal

/-- Python `round` to an integer uses round-half-to-even. -/
def roundHalfEven (q : ℚ) : ℤ :=
  let f := ⌊q⌋
  let r := q - (f : ℚ)
  if r < 1/2 then f
  else if 1/2 < r then f + 1
  else if f % 2 = 0 then f else f + 1

/-- Python `round(x, 2)`: round half-to-even at two decimal places. -/
def pyRound2 (q : ℚ) : ℚ := (roundHalfEven (q * 100) : ℚ) / 100

/-- Numeric value of a list of decimal digit characters read left to right. -/
def digitsVal (cs : List Char) : ℕ :=
  cs.foldl (fun a c => 10 * a + (c.toNat - 48)) 0

/-- Strip leading and trailing whitespace from a character list. -/
def trimChars (cs : List Char) : List Char :=
  ((cs.dropWhile Char.isWhitespace).reverse.dropWhile Char.isWhitespace).reverse

/-- Decimal-string recognizer behind the `float(s)` model: returns the sign,
the integer-part value, the fraction-part value and the number of fraction
digits, or `Option.none` when the string is not a plain decimal. -/
def pyFloatParse? (s : String) : Option (Bool × ℕ × ℕ × ℕ) :=
  let cs := trimChars s.toList
  let neg := cs.headD ' ' = '-'
  let rest := if cs.headD ' ' = '-' ∨ cs.headD ' ' = '+' then cs.tail else cs
  let intPart := rest.takeWhile (fun c => c ≠ '.')
  let afterInt := rest.dropWhile (fun c => c ≠ '.')
  match afterInt with
  | [] =>
      if intPart ≠ [] ∧ intPart.all Char.isDigit then
        some (neg, digitsVal intPart, 0, 0)
      else Option.none
  | _ :: fracPart =>
      if fracPart.any (fun c => c = '.') then Option.none
      else if intPart = [] ∧ fracPart = [] then Option.none
      else if intPart.all Char.isDigit ∧ fracPart.all Char.isDigit then
        some (neg, digitsVal intPart, digitsVal fracPart, fracPart.length)
      else Option.none

/-- Python `float(s)` on a plain decimal string: optional surrounding
whitespace, optional sign, digits with an optional fractional part
("1", "-2.5", "3.", ".5").  Any other string raises `ValueError`,
modelled as `Option.none`. -/
def pyFloat? (s : String) : Option ℚ :=
  (pyFloatParse? s).map (fun r =>
    (if r.1 then (-1 : ℚ) else 1) *
      ((r.2.1 : ℚ) + (r.2.2.1 : ℚ) / ((10 : ℚ) ^ r.2.2.2)))

/-- Python `float(v)` on a cell value: numbers convert to themselves,
strings are parsed as decimals, anything unparsable fails. -/
def pyFloatVal? : PyVal → Option ℚ
  | .none => Option.none
  | .num q => some q
  | .str s => pyFloat? s

/-- The fixed year-to-cell lookup table `YEAR_TO_CELL_MAP` from
calculation_logic.py. -/
def YEAR_TO_CELL_MAP : List (ℤ × String) :=
  [(10, "G74"), (15, "G79"), (20, "G84"), (25, "G89"), (30, "G94"),
   (35, "G99"), (40, "G104"), (45, "G109"), (50, "G114"), (55, "G119"),
   (60, "G124"), (70, "G134"), (80, "G144"), (90, "G154")]

/-- Cell reference mapped to a report year, when the year is in the table. -/
def lookupCell (y : ℤ) : Option String :=
  (YEAR_TO_CELL_MAP.find? (fun p => p.1 = y)).map (fun p => p.2)

/-- A single row of the extractor output: `{'year': ..., 'total_csv': ...}`. -/
structure YearEntry where
  year : ℤ
  total_csv : ℚ
deriving DecidableEq, Repr

/-- Non-fatal `st.warning` messages emitted by `read_results_from_xlsx`. -/
inductive RWarn where
  | cellMissing (y : ℤ)
  | nonNumeric (y : ℤ)
  | unmappedYear (y : ℤ)
deriving DecidableEq, Repr

/-- One iteration of the year loop in `read_results_from_xlsx`: the entry
appended to `results` for `year`, together with the warnings emitted.
A mapped year reads its cell and appends `round(total_csv, 2)`, substituting
`0.0` on `KeyError` or a non-numeric value; an unmapped year appends `0.0`
directly. -/
def readYear (sheet : Sheet) (year : ℤ) : YearEntry × List RWarn :=
  match lookupCell year with
  | some cellRef =>
      match sheet.cells cellRef with
      | Option.none => (⟨year, pyRound2 0⟩, [.cellMissing year])
      | some cellValue =>
          match cellValue with
          | .none => (⟨year, pyRound2 0⟩, [])
          | v =>
              match pyFloatVal? v with
              | some q => (⟨year, pyRound2 q⟩, [])
              | Option.none => (⟨year, pyRound2 0⟩, [.nonNumeric year])
  | Option.none => (⟨year, 0⟩, [.unmappedYear year])

/-- `read_results_from_xlsx` from calculation_logic.py: fails (returns
`None`) when the calculated file is missing or the "TRST" sheet is absent;
otherwise returns one entry per requested report year, plus the non-fatal
warnings emitted along the way. -/
def read_results_from_xlsx (fileExists sheetPresent : Bool) (sheet : Sheet)
    (report_years : List ℤ) : Option (List YearEntry) × List RWarn :=
  if fileExists = false then (Option.none, [])
  else if sheetPresent = false then (Option.none, [])
  else (some (report_years.map (fun y => (readYear sheet y).1)),
        (report_years.map (fun y => (readYear sheet y).2)).flatten)

example : pyRound2 0 = 0 := by norm_num [pyRound2, roundHalfEven]
example : pyFloatParse? "12.5" = some (false, 12, 5, 1) := by decide
example : pyFloat? "12.5" = some (25/2) := by
  have h : pyFloatParse? "12.5" = some (false, 12, 5, 1) := by decide
  rw [pyFloat?, h]; norm_num
example : pyFloat? "abc" = Option.none := by
  have h : pyFloatParse? "abc" = Option.none := by decide
  rw [pyFloat?, h]; rfl
example : pyFloatParse? "-3." = some (true, 3, 0, 0) := by decide
example : lookupCell 10 = some "G74" := by decide
example : lookupCell 11 = Option.none := by decide
example :
    read_results_from_xlsx true true ⟨fun _ => some PyVal.none⟩ [10, 11] =
      (some [⟨10, 0⟩, ⟨11, 0⟩], [.unmappedYear 11]) := by
  norm_num [read_results_from_xlsx, readYear, lookupCell, YEAR_TO_CELL_MAP,
    List.find?, pyRound2, roundHalfEven]

/-- Value of a scenario parameter as passed to the input writer: Python
`int`/`float` values are `num`, anything else is kept with its `str` form. -/
inductive PVal where
  | num (q : ℚ)
  | other (strForm : String)
deriving DecidableEq, Repr

/-- The write performed for one parameter: a number is written as a number
(`sheet[cell].value = value`), anything else as its string form
(`sheet[cell] = str(value)`). -/
def writeValue : PVal → PyVal
  | .num q => .num q
  | .other s => .str s

/-- Dictionary lookup in the scenario-parameter dict. -/
def lookupParam (ps : List (String × PVal)) (name : String) : Option PVal :=
  (ps.find? (fun p => p.1 = name)).map (fun p => p.2)

/-- The cell writes performed by the parameter loop of
`run_calculation_scenario`: for each `(param_name, cell_ref)` in the cell
map whose name is present in the scenario parameters, one write into
`cell_ref`. -/
def writeInputs (cell_map : List (String × String))
    (params : List (String × PVal)) : List (String × PyVal) :=
  cell_map.filterMap (fun nc =>
    (lookupParam params nc.1).map (fun v => (nc.2, writeValue v)))

/-- User-visible `st.error` events in the calculation pipeline. -/
inductive Err where
  | tempDirFailed
  | baseTemplateMissing
  | inputPrepException
  | sheetMissing
  | toolNotFound
  | odsConvFailed
  | odsException
  | xlsxConvFailed
  | xlsxException
  | resultReadFailed
  | scenarioFailed (name : String)
deriving DecidableEq, Repr

/-- Step 1 of `run_calculation_scenario` (copy the calculator template and
write the scenario inputs): fails when the base template is missing, when an
IO exception occurs while copying/loading/saving, or when the "TRST" sheet
is absent; otherwise performs the parameter writes. -/
def prepare_input (baseExists prepOk sheetPresent : Bool)
    (cell_map : List (String × String)) (params : List (String × PVal)) :
    Except Err (List (String × PyVal)) :=
  if baseExists = false then .error .baseTemplateMissing
  else if prepOk = false then .error .inputPrepException
  else if sheetPresent = false then .error .sheetMissing
  else .ok (writeInputs cell_map params)

/-- A file name inside the per-run temporary directory, split into base name
and extension (the Python code manipulates these with `os.path.splitext`). -/
structure FName where
  base : String
  ext : String
deriving DecidableEq, Repr

/-- The output name the external tool produces for a conversion: same base
name as the input, with the new extension. -/
def expectedOutput (input : FName) (newExt : String) : FName :=
  ⟨input.base, newExt⟩

/-- Observable outcome of one `subprocess.run` invocation of the external
binary: `completed = none` models an exception (timeout or launch failure),
`completed = some rc` the process finishing with exit code `rc`; `fs` gives
file existence in the output directory after the grace delay
(`time.sleep(1)`). -/
structure ConvAttempt where
  completed : Option ℤ
  fs : FName → Bool

/-- Result of one conversion step: whether it succeeded, and the path the
expected output file was renamed to (the caller-chosen path) on success. -/
structure ConvResult where
  success : Bool
  renamedTo : Option FName
deriving DecidableEq, Repr

/-- One conversion step of `run_calculation_scenario`: success requires exit
code zero and the expected output file (same base name, new extension)
existing after the grace delay; on success that file is renamed to the
caller-chosen target path. -/
def convertStep (a : ConvAttempt) (input : FName) (newExt : String)
    (target : FName) : ConvResult :=
  match a.completed with
  | Option.none => ⟨false, Option.none⟩
  | some rc =>
      if rc = 0 ∧ a.fs (expectedOutput input newExt) = true then
        ⟨true, some target⟩
      else ⟨false, Option.none⟩

/-- Python's sanitization of the scenario name:
`"".join(c for c in name if c.isalnum() or c in (' ', '_')).rstrip().lower().replace(' ', '_')`. -/
def safeScenarioName (s : String) : String :=
  let kept := s.toList.filter (fun c => c.isAlphanum || c = ' ' || c = '_')
  let stripped := (kept.reverse.dropWhile (fun c => c.isWhitespace)).reverse
  String.mk (stripped.map (fun c =>
    let l := c.toLower
    if l = ' ' then '_' else l))

/-- Per-scenario file names used by `run_calculation_scenario`. -/
def inputFile (name : String) : FName :=
  ⟨"input_" ++ safeScenarioName name, "xlsx"⟩

/-- Intermediate ODS file name for a scenario. -/
def intermediateFile (name : String) : FName :=
  ⟨"intermediate_" ++ safeScenarioName name, "ods"⟩

/-- Final calculated XLSX file name for a scenario. -/
def calculatedFile (name : String) : FName :=
  ⟨"calculated_" ++ safeScenarioName name, "xlsx"⟩

/-- Environment consulted by one scenario run: template/sheet availability,
the located office binary (if any), the two subprocess outcomes, and the
state of the recalculated workbook. -/
structure ScenarioEnv where
  baseExists : Bool
  prepOk : Bool
  sheetPresent : Bool
  soffice : Option String
  odsAttempt : ConvAttempt
  xlsxAttempt : ConvAttempt
  resultSheetPresent : Bool
  resultSheet : Sheet

/-- `run_calculation_scenario` from calculation_logic.py: write inputs,
locate the external binary, run the two conversion hops, then read results
from the recalculated file.  Returns the extractor's result list (or `None`)
together with the `st.error` events raised. -/
def run_calculation_scenario (name : String) (env : ScenarioEnv)
    (params : List (String × PVal)) (cell_map : List (String × String))
    (report_years : List ℤ) : Option (List YearEntry) × List Err :=
  match prepare_input env.baseExists env.prepOk env.sheetPresent cell_map params with
  | .error e => (Option.none, [e])
  | .ok _writes =>
      match env.soffice with
      | Option.none => (Option.none, [.toolNotFound])
      | some _path =>
          let step1 := convertStep env.odsAttempt (inputFile name) "ods"
            (intermediateFile name)
          if step1.success = true then
            let step2 := convertStep env.xlsxAttempt (intermediateFile name)
              "xlsx" (calculatedFile name)
            if step2.success = true then
              match (read_results_from_xlsx true env.resultSheetPresent
                  env.resultSheet report_years).1 with
              | some rs => (some rs, [])
              | Option.none => (Option.none, [.resultReadFailed])
            else
              (Option.none,
               [match env.xlsxAttempt.completed with
                | Option.none => .xlsxException
                | some _ => .xlsxConvFailed])
          else
            (Option.none,
             [match env.odsAttempt.completed with
              | Option.none => .odsException
              | some _ => .odsConvFailed])

example : safeScenarioName "No Withdrawal" = "no_withdrawal" := by decide

/-- Fixed payment term assumed by the Excel template (app.py). -/
def FIXED_PAYMENT_YEARS : ℤ := 5

/-- Fixed report-year list (app.py). -/
def FIXED_REPORT_YEARS : List ℤ :=
  [10, 15, 20, 25, 30, 35, 40, 45, 50, 55, 60, 70, 80, 90]

/-- Cell mapping for calculator inputs (app.py `INPUT_CELL_MAP`). -/
def INPUT_CELL_MAP : List (String × String) :=
  [("premium", "C7"), ("withdrawal_start", "F7"), ("withdrawal_amount", "F8")]

/-- User inputs collected by the sidebar and passed to
`generate_all_scenarios`. -/
structure Inputs where
  client_name : String
  premium : ℚ
  w_a_start : ℤ
  w_a_amount : ℚ
  w_b_start : ℤ
  w_b_amount : ℚ
deriving DecidableEq, Repr

/-- The shared `parameters` record placed in the result dictionary. -/
structure ReportParams where
  client_name : String
  premium : ℚ
  years : ℤ
  report_years : List ℤ
  withdrawal_a_start : ℤ
  withdrawal_a_amount : ℚ
  withdrawal_b_start : ℤ
  withdrawal_b_amount : ℚ
deriving DecidableEq, Repr

/-- The dictionary returned by `generate_all_scenarios` and consumed by the
report renderer: the `parameters` record plus one optional results list per
scenario label ("無提取", "提取方案 A", "提取方案 B").  A label's field is
`none` exactly when that key is absent from the dictionary. -/
structure CalcData where
  parameters : ReportParams
  noW : Option (List YearEntry)
  wA : Option (List YearEntry)
  wB : Option (List YearEntry)
deriving DecidableEq, Repr

/-- Environment for one whole `generate_all_scenarios` run: temporary
directory creation plus one scenario environment per potential scenario. -/
structure RunEnv where
  tempDirOk : Bool
  envNo : ScenarioEnv
  envA : ScenarioEnv
  envB : ScenarioEnv

/-- Parameter dict built for a single scenario run. -/
def scenParams (premium : ℚ) (start : ℤ) (amount : ℚ) :
    List (String × PVal) :=
  [("premium", .num premium), ("withdrawal_start", .num (start : ℚ)),
   ("withdrawal_amount", .num amount)]

/-- The `parameters` record built at the top of `generate_all_scenarios`. -/
def reportParams (inp : Inputs) : ReportParams :=
  ⟨inp.client_name, inp.premium, FIXED_PAYMENT_YEARS, FIXED_REPORT_YEARS,
   inp.w_a_start, inp.w_a_amount, inp.w_b_start, inp.w_b_amount⟩

/-- `generate_all_scenarios` from app.py: run the no-withdrawal scenario,
then (only when its own config is enabled and the base scenario succeeded)
withdrawal scenarios A and B, and assemble the result dictionary.  Returns
the dictionary (or `None` when the base scenario failed) together with all
`st.error` events of the run. -/
def generate_all_scenarios (inp : Inputs) (env : RunEnv) :
    Option CalcData × List Err :=
  if env.tempDirOk = false then (Option.none, [.tempDirFailed])
  else
    let p0 := run_calculation_scenario "No Withdrawal" env.envNo
      (scenParams inp.premium 0 0) INPUT_CELL_MAP FIXED_REPORT_YEARS
    let errs0 := p0.2 ++
      (if p0.1.isNone then [Err.scenarioFailed "No Withdrawal"] else [])
    let pA : Option (List YearEntry) × List Err :=
      if 0 < inp.w_a_start ∧ 0 < inp.w_a_amount ∧ p0.1.isSome = true then
        let r := run_calculation_scenario "Withdrawal A" env.envA
          (scenParams inp.premium inp.w_a_start inp.w_a_amount)
          INPUT_CELL_MAP FIXED_REPORT_YEARS
        (r.1, r.2 ++
          (if r.1.isNone then [Err.scenarioFailed "Withdrawal A"] else []))
      else (Option.none, [])
    let pB : Option (List YearEntry) × List Err :=
      if 0 < inp.w_b_start ∧ 0 < inp.w_b_amount ∧ p0.1.isSome = true then
        let r := run_calculation_scenario "Withdrawal B" env.envB
          (scenParams inp.premium inp.w_b_start inp.w_b_amount)
          INPUT_CELL_MAP FIXED_REPORT_YEARS
        (r.1, r.2 ++
          (if r.1.isNone then [Err.scenarioFailed "Withdrawal B"] else []))
      else (Option.none, [])
    match p0.1 with
    | some r0 =>
        (some ⟨reportParams inp, some r0, pA.1, pB.1⟩, errs0 ++ pA.2 ++ pB.2)
    | Option.none => (Option.none, errs0 ++ pA.2 ++ pB.2)

/-- Value written into a report cell: a number, a text, or `None`
(clearing the cell). -/
inductive XVal where
  | num (q : ℚ)
  | text (s : String)
  | empty
deriving DecidableEq, Repr

/-- A report-template cell reference, split into column letter and row
(the source writes for example `sheet['B6']`, here `⟨"B", 6⟩`). -/
structure CellRef where
  col : String
  row : ℕ
deriving DecidableEq, Repr

/-- The three scenario labels of the report grid. -/
inductive ScenLabel where
  | noWithdrawal
  | planA
  | planB
deriving DecidableEq, Repr

/-- Fixed result column per scenario label (report_utils.py
`scenario_map = {"無提取": 'B', "提取方案 A": 'D', "提取方案 B": 'F'}`). -/
def scenCol : ScenLabel → String
  | .noWithdrawal => "B"
  | .planA => "D"
  | .planB => "F"

/-- Results list stored under a scenario label, when the key is present. -/
def scenResults (cd : CalcData) : ScenLabel → Option (List YearEntry)
  | .noWithdrawal => cd.noW
  | .planA => cd.wA
  | .planB => cd.wB

/-- Iteration order of `scenario_map` (Python dicts preserve insertion
order). -/
def scenLabels : List ScenLabel := [.noWithdrawal, .planA, .planB]

/-- `get_value_for_year` from report_utils.py: first entry matching the
year, or `None`. -/
def get_value_for_year (results : List YearEntry) (target_year : ℤ) :
    Option ℚ :=
  (results.find? (fun e => e.year = target_year)).map (fun e => e.total_csv)

/-- The value written into one grid cell: `None` when the scenario key is
absent from the dictionary or the year is missing from its results list,
otherwise the (numeric) projected value. -/
def gridVal (results : Option (List YearEntry)) (year : ℤ) : XVal :=
  match results with
  | Option.none => .empty
  | some rs =>
      match get_value_for_year rs year with
      | some v => .num v
      | Option.none => .empty

/-- Python `str(n)` of the withdrawal amount: printed as an int when the
value is integral, as-is otherwise. -/
def fmtAmount (q : ℚ) : String :=
  if q.den = 1 then toString q.num else toString q

/-- `get_withdrawal_scenario_text` from report_utils.py. -/
def get_withdrawal_scenario_text (start : ℤ) (amount : ℚ)
    (letter : String) : String :=
  if 0 < start ∧ 0 < amount then
    "从第" ++ toString start ++ "年开始提取\n每年提取" ++ fmtAmount amount ++ "美金"
  else if 0 < start ∧ amount ≤ 0 then
    "从第" ++ toString start ++ "年开始提取\n提取金额未设定或为零"
  else if start ≤ 0 ∧ 0 < amount then
    "提取开始年份未设定\n计划每年提取" ++ fmtAmount amount ++ "美金"
  else
    "未設定提取方案 " ++ letter

/-- The `(year, row)` pairs produced by
`for i, year in enumerate(template_years)` with `current_row = 12 + i`. -/
def enumRowsFrom (r : ℕ) : List ℤ → List (ℤ × ℕ)
  | [] => []
  | y :: ys => (y, r) :: enumRowsFrom (r + 1) ys

/-- The Python dict `cell_map_results_fixed` keyed by year: lookup returns
the row of the *last* insertion for that year, as dict assignment does. -/
def rowForYear (years : List ℤ) (y : ℤ) : Option ℕ :=
  (((enumRowsFrom 12 years).reverse).find? (fun p => p.1 = y)).map
    (fun p => p.2)

/-- The three grid writes performed for one iteration of the result loop:
one cell per scenario label on the year's row. -/
def writesForYear (cd : CalcData) (years : List ℤ) (y : ℤ) :
    List (CellRef × XVal) :=
  match rowForYear years y with
  | Option.none => []
  | some r =>
      scenLabels.map (fun lab =>
        (⟨scenCol lab, r⟩, gridVal (scenResults cd lab) y))

/-- All grid writes of the result loop, in execution order. -/
def gridCellWrites (cd : CalcData) (years : List ℤ) :
    List (CellRef × XVal) :=
  (years.map (writesForYear cd years)).flatten

/-- The header writes of `create_plan_excel`: client name (B1), annual
premium (B5), total premium = premium × payment years (B6), and the two
withdrawal-description texts (C10, E10). -/
def headerWrites (p : ReportParams) : List (CellRef × XVal) :=
  [(⟨"B", 1⟩, .text p.client_name),
   (⟨"B", 5⟩, .num p.premium),
   (⟨"B", 6⟩, .num (p.premium * (p.years : ℚ))),
   (⟨"C", 10⟩, .text (get_withdrawal_scenario_text p.withdrawal_a_start
      p.withdrawal_a_amount "A")),
   (⟨"E", 10⟩, .text (get_withdrawal_scenario_text p.withdrawal_b_start
      p.withdrawal_b_amount "B"))]

/-- `create_plan_excel` from report_utils.py, abstracted to the sequence of
cell writes it performs on the template: fails when the template file is
missing, otherwise performs the header writes followed by the result-grid
writes. -/
def create_plan_excel (cd : CalcData) (templateExists : Bool) :
    Option (List (CellRef × XVal)) :=
  if templateExists = false then Option.none
  else some (headerWrites cd.parameters ++
    gridCellWrites cd cd.parameters.report_years)

/-- Content of a cell after a sequence of writes: the last write wins;
`Option.none` means the cell was never written (template content stays). -/
def finalCell (writes : List (CellRef × XVal)) (c : CellRef) : Option XVal :=
  (writes.reverse.find? (fun p => p.1 = c)).map (fun p => p.2)

/-! ## Helper lemmas -/

theorem pyRound2_zero : pyRound2 0 = 0 := by
  norm_num [pyRound2, roundHalfEven]

/-! ## Claims about the result extractor -/

/-- C3: for every requested report-year list, `read_results_from_xlsx`
(when it returns a result) returns a list whose length equals the length of
the requested list; a year absent from the year-to-cell table contributes an
entry with value 0.0 instead of an exception or an omission. -/
theorem read_results_length_and_unmapped_zero (sheet : Sheet)
    (years : List ℤ) :
    ∃ l, (read_results_from_xlsx true true sheet years).1 = some l ∧
      l.length = years.length ∧
      ∀ (i : ℕ) (y : ℤ), years[i]? = some y → lookupCell y = Option.none →
        l[i]? = some (YearEntry.mk y 0) := by
  refine ⟨years.map (fun z => (readYear sheet z).1), ?_, by simp, ?_⟩
  · simp [read_results_from_xlsx]
  · intro i y hy hcell
    rw [List.getElem?_map, hy]
    simp [readYear, hcell]

/-- C4: `read_results_from_xlsx` never raises on a mapped cell holding
non-numeric text: it records 0.0 for that year, emits a non-fatal warning,
and still processes every remaining year. -/
theorem read_results_nonnumeric_text_safe (sheet : Sheet) (years : List ℤ)
    (y : ℤ) (ref s : String)
    (hcell : lookupCell y = some ref)
    (hval : sheet.cells ref = some (PyVal.str s))
    (hparse : pyFloat? s = Option.none) :
    ∃ l ws, read_results_from_xlsx true true sheet years = (some l, ws) ∧
      l.length = years.length ∧
      (∀ (i : ℕ), years[i]? = some y → l[i]? = some (YearEntry.mk y 0)) ∧
      (y ∈ years → RWarn.nonNumeric y ∈ ws) := by
  have hyear : readYear sheet y = (⟨y, 0⟩, [RWarn.nonNumeric y]) := by
    simp [readYear, hcell, hval, pyFloatVal?, hparse, pyRound2_zero]
  refine ⟨years.map (fun z => (readYear sheet z).1),
    (years.map (fun z => (readYear sheet z).2)).flatten,
    by simp [read_results_from_xlsx], by simp, ?_, ?_⟩
  · intro i hy
    rw [List.getElem?_map, hy]
    simp [hyear]
  · intro hmem
    refine List.mem_flatten.mpr ⟨[RWarn.nonNumeric y], ?_, by simp⟩
    refine List.mem_map.mpr ⟨y, hmem, ?_⟩
    rw [hyear]

/-- C10: for a year present in the year-to-cell table, the extractor's entry
carries `round(float(cell value), 2)` when the cell is numeric, and 0.0 with
no warning when the cell is empty (`None`); the returned list is exactly the
per-year entries. -/
theorem read_results_mapped_cell_values (sheet : Sheet) (years : List ℤ)
    (y : ℤ) (ref : String) (hcell : lookupCell y = some ref) :
    (∀ q, sheet.cells ref = some (PyVal.num q) →
        readYear sheet y = (⟨y, pyRound2 q⟩, [])) ∧
    (sheet.cells ref = some PyVal.none →
        readYear sheet y = (⟨y, 0⟩, [])) ∧
    (read_results_from_xlsx true true sheet years).1 =
        some (years.map (fun z => (readYear sheet z).1)) := by
  refine ⟨?_, ?_, by simp [read_results_from_xlsx]⟩
  · intro q hq
    simp [readYear, hcell, hq, pyFloatVal?]
  · intro hempty
    simp [readYear, hcell, hempty, pyRound2_zero]

/-- Witness for C4 at a concrete sheet whose cell G74 holds the text
"abc". -/
theorem read_results_nonnumeric_text_safe_witness :
    ∃ l ws,
      read_results_from_xlsx true true
        ⟨fun r => if r = "G74" then some (PyVal.str "abc")
          else some PyVal.none⟩ [10, 15] = (some l, ws) ∧
      l.length = ([10, 15] : List ℤ).length ∧
      (∀ (i : ℕ), (([10, 15] : List ℤ))[i]? = some 10 → l[i]? = some (YearEntry.mk 10 0)) ∧
      ((10 : ℤ) ∈ ([10, 15] : List ℤ) → RWarn.nonNumeric 10 ∈ ws) :=
  read_results_nonnumeric_text_safe
    ⟨fun r => if r = "G74" then some (PyVal.str "abc") else some PyVal.none⟩
    [10, 15] 10 "G74" "abc" (by decide) (by simp)
    (by
      have h : pyFloatParse? "abc" = Option.none := by decide
      rw [pyFloat?, h]; rfl)

/-- Witness for C10 at a concrete sheet whose cell G74 holds 7. -/
theorem read_results_mapped_cell_values_witness :
    (∀ q,
        Sheet.cells ⟨fun r => if r = "G74" then some (PyVal.num 7)
          else some PyVal.none⟩ "G74" = some (PyVal.num q) →
        readYear ⟨fun r => if r = "G74" then some (PyVal.num 7)
          else some PyVal.none⟩ 10 = (⟨10, pyRound2 q⟩, [])) ∧
    (Sheet.cells ⟨fun r => if r = "G74" then some (PyVal.num 7)
        else some PyVal.none⟩ "G74" = some PyVal.none →
        readYear ⟨fun r => if r = "G74" then some (PyVal.num 7)
          else some PyVal.none⟩ 10 = (⟨10, 0⟩, [])) ∧
    (read_results_from_xlsx true true
        ⟨fun r => if r = "G74" then some (PyVal.num 7)
          else some PyVal.none⟩ [10]).1 =
      some (([10] : List ℤ).map (fun z =>
        (readYear ⟨fun r => if r = "G74" then some (PyVal.num 7)
          else some PyVal.none⟩ z).1)) :=
  read_results_mapped_cell_values
    ⟨fun r => if r = "G74" then some (PyVal.num 7) else some PyVal.none⟩
    [10] 10 "G74" (by decide)

/-! ## Claims about the conversion driver and input writer -/

/-- C7: a conversion step succeeds exactly when the subprocess completed
with exit code zero and the expected output file (same base name, new
extension) exists after the grace delay; on success that file is renamed to
the caller-chosen path; on any failure of either hop the scenario returns
no result (and there is no retry: the step is consulted once). -/
theorem convertStep_success_iff (a : ConvAttempt) (i : FName) (e : String)
    (t : FName) :
    (convertStep a i e t).success = true ↔
      ∃ rc, a.completed = some rc ∧ rc = 0 ∧
        a.fs (expectedOutput i e) = true := by
  cases hc : a.completed with
  | none => simp [convertStep, hc]
  | some rc =>
      by_cases hok : rc = 0 ∧ a.fs (expectedOutput i e) = true
      · simp [convertStep, hc, hok]
      · simp only [convertStep, hc]
        rw [if_neg hok]
        constructor
        · intro hfalse; exact absurd hfalse (by simp)
        · rintro ⟨rc', hrc', h0, hfs⟩
          rw [Option.some_inj] at hrc'
          subst hrc'
          exact absurd ⟨h0, hfs⟩ hok

theorem convertStep_renamedTo (a : ConvAttempt) (i : FName) (e : String)
    (t : FName) :
    ((convertStep a i e t).success = true →
      (convertStep a i e t).renamedTo = some t) ∧
    ((convertStep a i e t).success = false →
      (convertStep a i e t).renamedTo = Option.none) := by
  cases hc : a.completed with
  | none => simp [convertStep, hc]
  | some rc =>
      by_cases hok : rc = 0 ∧ a.fs (expectedOutput i e) = true
      · simp [convertStep, hc, hok]
      · simp only [convertStep, hc]
        rw [if_neg hok]
        simp

theorem run_none_of_ods_fail (name : String) (env : ScenarioEnv)
    (params : List (String × PVal)) (cell_map : List (String × String))
    (years : List ℤ)
    (hfail : (convertStep env.odsAttempt (inputFile name) "ods"
      (intermediateFile name)).success = false) :
    (run_calculation_scenario name env params cell_map years).1 =
      Option.none := by
  unfold run_calculation_scenario
  cases prepare_input env.baseExists env.prepOk env.sheetPresent cell_map
      params with
  | error e => rfl
  | ok w =>
      cases env.soffice with
      | none => rfl
      | some p => simp [hfail]

theorem run_none_of_xlsx_fail (name : String) (env : ScenarioEnv)
    (params : List (String × PVal)) (cell_map : List (String × String))
    (years : List ℤ)
    (hfail : (convertStep env.xlsxAttempt (intermediateFile name) "xlsx"
      (calculatedFile name)).success = false) :
    (run_calculation_scenario name env params cell_map years).1 =
      Option.none := by
  unfold run_calculation_scenario
  cases prepare_input env.baseExists env.prepOk env.sheetPresent cell_map
      params with
  | error e => rfl
  | ok w =>
      cases env.soffice with
      | none => rfl
      | some p =>
          by_cases h1 : (convertStep env.odsAttempt (inputFile name) "ods"
              (intermediateFile name)).success = true
          · simp [h1, hfail]
          · simp [h1]

/-- C7: a conversion step succeeds exactly when the subprocess completed
with exit code zero and the expected output file (same base name, new
extension) exists after the grace delay; on success that file is renamed to
the caller-chosen path; on any failure of either hop the scenario returns
no result (and there is no retry: the step is consulted once). -/
theorem conversion_step_success_and_no_retry (a : ConvAttempt)
    (input : FName) (newExt : String) (target : FName) (name : String)
    (env : ScenarioEnv) (params : List (String × PVal))
    (cell_map : List (String × String)) (years : List ℤ) :
    ((convertStep a input newExt target).success = true ↔
      ∃ rc, a.completed = some rc ∧ rc = 0 ∧
        a.fs (expectedOutput input newExt) = true) ∧
    ((convertStep a input newExt target).success = true →
      (convertStep a input newExt target).renamedTo = some target) ∧
    ((convertStep a input newExt target).success = false →
      (convertStep a input newExt target).renamedTo = Option.none) ∧
    (expectedOutput input newExt = ⟨input.base, newExt⟩) ∧
    ((convertStep env.odsAttempt (inputFile name) "ods"
        (intermediateFile name)).success = false →
      (run_calculation_scenario name env params cell_map years).1 =
        Option.none) ∧
    ((convertStep env.xlsxAttempt (intermediateFile name) "xlsx"
        (calculatedFile name)).success = false →
      (run_calculation_scenario name env params cell_map years).1 =
        Option.none) :=
  ⟨convertStep_success_iff a input newExt target,
   (convertStep_renamedTo a input newExt target).1,
   (convertStep_renamedTo a input newExt target).2,
   rfl,
   run_none_of_ods_fail name env params cell_map years,
   run_none_of_xlsx_fail name env params cell_map years⟩

/-- C8: the input-writing step writes each mapped scenario parameter as a
number when it is an int/float and as its string form otherwise, and the
scenario returns no result when the base template file is missing or the
expected sheet is absent from the workbook. -/
theorem input_writer_numeric_coercion_and_failures (be po sp : Bool)
    (cm : List (String × String)) (ps : List (String × PVal))
    (name : String) (env : ScenarioEnv) (years : List ℤ) :
    (be = false → prepare_input be po sp cm ps = .error .baseTemplateMissing) ∧
    (be = true → po = true → sp = false →
      prepare_input be po sp cm ps = .error .sheetMissing) ∧
    (∀ n c q, (n, c) ∈ cm → lookupParam ps n = some (PVal.num q) →
      (c, PyVal.num q) ∈ writeInputs cm ps) ∧
    (∀ n c s, (n, c) ∈ cm → lookupParam ps n = some (PVal.other s) →
      (c, PyVal.str s) ∈ writeInputs cm ps) ∧
    (env.baseExists = false ∨ env.sheetPresent = false →
      (run_calculation_scenario name env ps cm years).1 = Option.none) := by
  refine ⟨?_, ?_, ?_, ?_, ?_⟩
  · intro h; simp [prepare_input, h]
  · intro h1 h2 h3; simp [prepare_input, h1, h2, h3]
  · intro n c q hmem hlook
    exact List.mem_filterMap.mpr ⟨(n, c), hmem, by simp [hlook, writeValue]⟩
  · intro n c s hmem hlook
    exact List.mem_filterMap.mpr ⟨(n, c), hmem, by simp [hlook, writeValue]⟩
  · intro hbad
    unfold run_calculation_scenario
    have hex : ∃ e, prepare_input env.baseExists env.prepOk env.sheetPresent
        cm ps = .error e := by
      unfold prepare_input
      rcases hbad with h | h
      · exact ⟨Err.baseTemplateMissing, by simp [h]⟩
      · rcases hb : env.baseExists with _ | _
        · exact ⟨Err.baseTemplateMissing, by simp⟩
        · rcases hp : env.prepOk with _ | _
          · exact ⟨Err.inputPrepException, by simp⟩
          · exact ⟨Err.sheetMissing, by simp [h]⟩
    rcases hex with ⟨e, he⟩
    rw [he]

/-! ## Concrete test fixtures -/

/-- A recalculated workbook whose every cell is empty. -/
def emptySheet : Sheet := ⟨fun _ => some PyVal.none⟩

/-- A subprocess invocation that exits 0 with every output file present. -/
def okAttempt : ConvAttempt := ⟨some 0, fun _ => true⟩

/-- A scenario environment in which everything succeeds. -/
def okScenarioEnv : ScenarioEnv :=
  ⟨true, true, true, some "soffice", okAttempt, okAttempt, true, emptySheet⟩

/-- A scenario environment in which the office binary is not found. -/
def noToolEnv : ScenarioEnv :=
  ⟨true, true, true, Option.none, okAttempt, okAttempt, true, emptySheet⟩

theorem readYear_emptySheet (y : ℤ) (h : (lookupCell y).isSome = true) :
    readYear emptySheet y = (⟨y, 0⟩, []) := by
  rcases ho : lookupCell y with _ | ref
  · rw [ho] at h; simp at h
  · simp [readYear, ho, emptySheet, pyRound2_zero]

theorem run_okScenarioEnv (name : String) (ps : List (String × PVal))
    (cm : List (String × String)) :
    run_calculation_scenario name okScenarioEnv ps cm FIXED_REPORT_YEARS =
      (some (FIXED_REPORT_YEARS.map (fun y => YearEntry.mk y 0)), []) := by
  have hread : ∀ y ∈ FIXED_REPORT_YEARS,
      (readYear emptySheet y).1 = YearEntry.mk y 0 := by
    intro y hy
    fin_cases hy <;> rw [readYear_emptySheet _ (by decide)]
  unfold run_calculation_scenario
  rw [show prepare_input okScenarioEnv.baseExists okScenarioEnv.prepOk
      okScenarioEnv.sheetPresent cm ps = .ok (writeInputs cm ps) from rfl]
  simp only [okScenarioEnv, okAttempt, convertStep, expectedOutput]
  norm_num [read_results_from_xlsx]
  exact hread

/-! ## Claims about the scenario orchestration -/

/-- C1: when the office binary cannot be located, the whole run returns no
result, the withdrawal scenarios are never attempted, and exactly one
"tool not found" failure is reported (followed only by the base scenario's
failure notice), not one failure per configured scenario. -/
theorem soffice_missing_single_failure (inp : Inputs) (env : RunEnv)
    (htmp : env.tempDirOk = true)
    (hbase : env.envNo.baseExists = true)
    (hprep : env.envNo.prepOk = true)
    (hsheet : env.envNo.sheetPresent = true)
    (hsoff : env.envNo.soffice = Option.none) :
    generate_all_scenarios inp env =
      (Option.none, [Err.toolNotFound, Err.scenarioFailed "No Withdrawal"]) := by
  have hrun : ∀ (name : String) (ps : List (String × PVal)),
      run_calculation_scenario name env.envNo ps INPUT_CELL_MAP
        FIXED_REPORT_YEARS = (Option.none, [Err.toolNotFound]) := by
    intro name ps
    unfold run_calculation_scenario
    rw [show prepare_input env.envNo.baseExists env.envNo.prepOk
        env.envNo.sheetPresent INPUT_CELL_MAP ps =
        .ok (writeInputs INPUT_CELL_MAP ps) by
      simp [prepare_input, hbase, hprep, hsheet]]
    rw [hsoff]
  unfold generate_all_scenarios
  rw [htmp]
  simp only [Bool.true_eq_false, if_false, hrun]
  norm_num

/-- Witness for C1 at a fully concrete run environment. -/
theorem soffice_missing_single_failure_witness :
    generate_all_scenarios ⟨"client", 10000, 10, 500, 20, 600⟩
        ⟨true, noToolEnv, noToolEnv, noToolEnv⟩ =
      (Option.none, [Err.toolNotFound, Err.scenarioFailed "No Withdrawal"]) :=
  soffice_missing_single_failure ⟨"client", 10000, 10, 500, 20, 600⟩
    ⟨true, noToolEnv, noToolEnv, noToolEnv⟩ rfl rfl rfl rfl rfl

/-- C2: a withdrawal configuration whose start year or amount is not
positive never contributes its scenario key to the returned dictionary. -/
theorem disabled_withdrawal_excluded (inp : Inputs) (env : RunEnv)
    (ss : CalcData) (errs : List Err)
    (h : generate_all_scenarios inp env = (some ss, errs)) :
    (inp.w_a_start ≤ 0 ∨ inp.w_a_amount ≤ 0 → ss.wA = Option.none) ∧
    (inp.w_b_start ≤ 0 ∨ inp.w_b_amount ≤ 0 → ss.wB = Option.none) := by
  unfold generate_all_scenarios at h
  rcases htmp : env.tempDirOk with _ | _
  · rw [htmp] at h; simp at h
  · rw [htmp] at h
    simp only [Bool.true_eq_false, if_false] at h
    rcases hp0 : (run_calculation_scenario "No Withdrawal" env.envNo
        (scenParams inp.premium 0 0) INPUT_CELL_MAP FIXED_REPORT_YEARS).1
      with _ | r0
    · rw [hp0] at h; simp at h
    · rw [hp0] at h
      simp only [Prod.mk.injEq, Option.some_inj] at h
      constructor
      · intro hdis
        have hcond : ¬(0 < inp.w_a_start ∧ 0 < inp.w_a_amount ∧
            (some r0).isSome = true) := by
          rcases hdis with hd | hd
          · intro hcontra; omega
          · intro hcontra
            exact absurd hcontra.2.1 (not_lt.mpr hd)
        rw [if_neg hcond] at h
        rw [← h.1]
      · intro hdis
        have hcond : ¬(0 < inp.w_b_start ∧ 0 < inp.w_b_amount ∧
            (some r0).isSome = true) := by
          rcases hdis with hd | hd
          · intro hcontra; omega
          · intro hcontra
            exact absurd hcontra.2.1 (not_lt.mpr hd)
        rw [if_neg hcond] at h
        rw [← h.1]

theorem run_noToolEnv (name : String) (ps : List (String × PVal))
    (cm : List (String × String)) (years : List ℤ) :
    run_calculation_scenario name noToolEnv ps cm years =
      (Option.none, [Err.toolNotFound]) := rfl

/-- The base scenario's result list over an all-empty recalculated sheet. -/
def baseResults : List YearEntry :=
  FIXED_REPORT_YEARS.map (fun y => YearEntry.mk y 0)

/-- Concrete inputs with scenario A missing its start year and scenario B
missing its amount. -/
def inpAB0 : Inputs := ⟨"client", 10000, 0, 500, 20, 0⟩

/-- A run environment in which every scenario would succeed. -/
def envOkAll : RunEnv := ⟨true, okScenarioEnv, okScenarioEnv, okScenarioEnv⟩

/-- The dictionary produced for `inpAB0` under `envOkAll`. -/
def ssAB0 : CalcData :=
  ⟨reportParams inpAB0, some baseResults, Option.none, Option.none⟩

theorem generate_inpAB0 :
    generate_all_scenarios inpAB0 envOkAll = (some ssAB0, []) := by
  unfold generate_all_scenarios
  norm_num [inpAB0, envOkAll, ssAB0, baseResults, run_okScenarioEnv]

/-- Witness for C2 at concrete inputs with scenario A's start year zero and
scenario B's amount zero. -/
theorem disabled_withdrawal_excluded_witness :
    (inpAB0.w_a_start ≤ 0 ∨ inpAB0.w_a_amount ≤ 0 →
      ssAB0.wA = Option.none) ∧
    (inpAB0.w_b_start ≤ 0 ∨ inpAB0.w_b_amount ≤ 0 →
      ssAB0.wB = Option.none) :=
  disabled_withdrawal_excluded inpAB0 envOkAll ssAB0 [] generate_inpAB0

/-- C9: when the base scenario succeeds and withdrawal scenario A's
calculation fails, scenario B is still attempted and the returned dictionary
contains the base results (and B's result, whatever it is) with scenario A
silently omitted. -/
theorem withdrawal_failure_not_fatal (inp : Inputs) (env : RunEnv)
    (r0 : List YearEntry) (e0 eA : List Err)
    (htmp : env.tempDirOk = true)
    (h0 : run_calculation_scenario "No Withdrawal" env.envNo
      (scenParams inp.premium 0 0) INPUT_CELL_MAP FIXED_REPORT_YEARS =
      (some r0, e0))
    (hA1 : 0 < inp.w_a_start) (hA2 : 0 < inp.w_a_amount)
    (hAfail : run_calculation_scenario "Withdrawal A" env.envA
      (scenParams inp.premium inp.w_a_start inp.w_a_amount)
      INPUT_CELL_MAP FIXED_REPORT_YEARS = (Option.none, eA))
    (hB1 : 0 < inp.w_b_start) (hB2 : 0 < inp.w_b_amount) :
    ∃ errs, generate_all_scenarios inp env =
      (some ⟨reportParams inp, some r0, Option.none,
        (run_calculation_scenario "Withdrawal B" env.envB
          (scenParams inp.premium inp.w_b_start inp.w_b_amount)
          INPUT_CELL_MAP FIXED_REPORT_YEARS).1⟩, errs) := by
  have hmain : generate_all_scenarios inp env =
      (some ⟨reportParams inp, some r0, Option.none,
        (run_calculation_scenario "Withdrawal B" env.envB
          (scenParams inp.premium inp.w_b_start inp.w_b_amount)
          INPUT_CELL_MAP FIXED_REPORT_YEARS).1⟩,
        (e0 ++ []) ++ (eA ++ [Err.scenarioFailed "Withdrawal A"]) ++
          ((run_calculation_scenario "Withdrawal B" env.envB
            (scenParams inp.premium inp.w_b_start inp.w_b_amount)
            INPUT_CELL_MAP FIXED_REPORT_YEARS).2 ++
           (if (run_calculation_scenario "Withdrawal B" env.envB
              (scenParams inp.premium inp.w_b_start inp.w_b_amount)
              INPUT_CELL_MAP FIXED_REPORT_YEARS).1.isNone = true then
             [Err.scenarioFailed "Withdrawal B"] else []))) := by
    unfold generate_all_scenarios
    rw [htmp]
    simp only [Bool.true_eq_false, if_false, h0, hAfail]
    simp [hA1, hA2, hB1, hB2]
  exact ⟨_, hmain⟩

/-- Witness for C9: base scenario succeeds, scenario A's environment lacks
the office binary, scenario B's environment succeeds. -/
theorem withdrawal_failure_not_fatal_witness :
    ∃ errs,
      generate_all_scenarios ⟨"client", 10000, 10, 500, 20, 600⟩
          ⟨true, okScenarioEnv, noToolEnv, okScenarioEnv⟩ =
        (some ⟨reportParams ⟨"client", 10000, 10, 500, 20, 600⟩,
          some baseResults, Option.none,
          (run_calculation_scenario "Withdrawal B" okScenarioEnv
            (scenParams 10000 20 600) INPUT_CELL_MAP
            FIXED_REPORT_YEARS).1⟩, errs) :=
  withdrawal_failure_not_fatal ⟨"client", 10000, 10, 500, 20, 600⟩
    ⟨true, okScenarioEnv, noToolEnv, okScenarioEnv⟩ baseResults []
    [Err.toolNotFound] rfl (run_okScenarioEnv _ _ _) (by norm_num)
    (by norm_num) (run_noToolEnv _ _ _ _) (by norm_num) (by norm_num)

/-! ## Structure of the report grid writes -/

theorem mem_enumRowsFrom_ge (r : ℕ) (ys : List ℤ) (y : ℤ) (rr : ℕ)
    (h : (y, rr) ∈ enumRowsFrom r ys) : r ≤ rr := by
  induction ys generalizing r with
  | nil => simp [enumRowsFrom] at h
  | cons a t ih =>
      simp only [enumRowsFrom, List.mem_cons] at h
      rcases h with h | h
      · rw [Prod.mk.injEq] at h; omega
      · have := ih (r + 1) h; omega

theorem exists_enumRowsFrom (r : ℕ) (ys : List ℤ) (y : ℤ) :
    y ∈ ys → ∃ rr, (y, rr) ∈ enumRowsFrom r ys := by
  induction ys generalizing r with
  | nil => intro h; simp at h
  | cons a t ih =>
      intro h
      rcases List.mem_cons.mp h with h | h
      · exact ⟨r, by simp [enumRowsFrom, h]⟩
      · obtain ⟨rr, hrr⟩ := ih (r + 1) h
        exact ⟨rr, List.mem_cons.mpr (Or.inr hrr)⟩

theorem rowForYear_eq_some (ys : List ℤ) (y : ℤ) (h : y ∈ ys) :
    ∃ rr, rowForYear ys y = some rr ∧ 12 ≤ rr := by
  obtain ⟨rr0, hrr0⟩ := exists_enumRowsFrom 12 ys y h
  have hsome : ((enumRowsFrom 12 ys).reverse.find?
      (fun p => p.1 = y)).isSome := by
    apply List.find?_isSome.mpr
    exact ⟨(y, rr0), List.mem_reverse.mpr hrr0, by simp⟩
  obtain ⟨q, hq⟩ := Option.isSome_iff_exists.mp hsome
  have hqmem : q ∈ enumRowsFrom 12 ys :=
    List.mem_reverse.mp (List.mem_of_find?_eq_some hq)
  have hq1 : q.1 = y := by
    have := List.find?_some hq
    simpa using this
  refine ⟨q.2, ?_, ?_⟩
  · unfold rowForYear
    rw [hq]
    rfl
  · have hpair : (y, q.2) ∈ enumRowsFrom 12 ys := by
      rw [← hq1]
      simpa using hqmem
    exact mem_enumRowsFrom_ge 12 ys y q.2 hpair

theorem rowForYear_ge (ys : List ℤ) (y : ℤ) (rr : ℕ)
    (h : rowForYear ys y = some rr) : 12 ≤ rr := by
  unfold rowForYear at h
  rcases hf : (enumRowsFrom 12 ys).reverse.find? (fun p => p.1 = y)
    with _ | q
  · rw [hf] at h; simp at h
  · rw [hf] at h
    simp only [Option.map_some'] at h
    rw [Option.some_inj] at h
    have hqmem : q ∈ enumRowsFrom 12 ys :=
      List.mem_reverse.mp (List.mem_of_find?_eq_some hf)
    have hge : 12 ≤ q.2 :=
      mem_enumRowsFrom_ge 12 ys q.1 q.2 (by simpa using hqmem)
    omega

theorem gridWrite_mem (cd : CalcData) (ys : List ℤ) (y : ℤ) (rr : ℕ)
    (lab : ScenLabel) (hy : y ∈ ys) (hr : rowForYear ys y = some rr) :
    (⟨scenCol lab, rr⟩, gridVal (scenResults cd lab) y) ∈
      gridCellWrites cd ys := by
  unfold gridCellWrites
  refine List.mem_flatten.mpr
    ⟨writesForYear cd ys y, List.mem_map.mpr ⟨y, hy, rfl⟩, ?_⟩
  unfold writesForYear
  rw [hr]
  cases lab <;> simp [scenLabels]

theorem gridWrite_shape (cd : CalcData) (ys : List ℤ)
    (w : CellRef × XVal) (hw : w ∈ gridCellWrites cd ys) :
    ∃ y lab rr, y ∈ ys ∧ rowForYear ys y = some rr ∧
      w = (⟨scenCol lab, rr⟩, gridVal (scenResults cd lab) y) := by
  unfold gridCellWrites at hw
  obtain ⟨l, hl, hwl⟩ := List.mem_flatten.mp hw
  obtain ⟨y, hy, hly⟩ := List.mem_map.mp hl
  rw [← hly] at hwl
  unfold writesForYear at hwl
  rcases hr : rowForYear ys y with _ | rr
  · rw [hr] at hwl; simp at hwl
  · rw [hr] at hwl
    obtain ⟨lab, hlab, hwe⟩ := List.mem_map.mp hwl
    exact ⟨y, lab, rr, hy, hr, hwe.symm⟩

theorem scenCol_injective (l1 l2 : ScenLabel)
    (h : scenCol l1 = scenCol l2) : l1 = l2 := by
  cases l1 <;> cases l2 <;> first | rfl | (exfalso; simp [scenCol] at h)

/-! ## Claims about the report renderer -/

/-- C5: the total-premium header cell B6 receives exactly
premium × fixed payment term (5 years), for any non-negative premium. -/
theorem total_premium_header_exact (cd : CalcData)
    (hyears : cd.parameters.years = FIXED_PAYMENT_YEARS)
    (hprem : 0 ≤ cd.parameters.premium) :
    ∃ ws, create_plan_excel cd true = some ws ∧
      finalCell ws ⟨"B", 6⟩ =
        some (XVal.num (cd.parameters.premium * 5)) := by
  refine ⟨_, rfl, ?_⟩
  unfold finalCell
  rw [List.reverse_append, List.find?_append]
  have hgrid : ((gridCellWrites cd cd.parameters.report_years).reverse.find?
      (fun p => p.1 = (⟨"B", 6⟩ : CellRef))) = Option.none := by
    rw [List.find?_eq_none]
    intro w hw
    obtain ⟨y', lab', rr', hy', hr', hwe⟩ :=
      gridWrite_shape _ _ _ (List.mem_reverse.mp hw)
    have h12 := rowForYear_ge _ _ _ hr'
    simp only [decide_eq_true_eq]
    intro hEq
    rw [hwe] at hEq
    have hrow : rr' = 6 := congrArg CellRef.row hEq
    omega
  rw [hgrid]
  have hheader : ((headerWrites cd.parameters).reverse.find?
      (fun p => p.1 = (⟨"B", 6⟩ : CellRef))) =
      some (⟨"B", 6⟩,
        XVal.num (cd.parameters.premium * (cd.parameters.years : ℚ))) := by
    simp [headerWrites, List.find?]
  rw [hheader]
  simp only [Option.none_or, Option.map_some']
  rw [hyears]
  norm_num [FIXED_PAYMENT_YEARS]

/-- Witness for C5 at the concrete dictionary `ssAB0`. -/
theorem total_premium_header_exact_witness :
    ∃ ws, create_plan_excel ssAB0 true = some ws ∧
      finalCell ws ⟨"B", 6⟩ =
        some (XVal.num (ssAB0.parameters.premium * 5)) :=
  total_premium_header_exact ssAB0 rfl (by norm_num [ssAB0, reportParams, inpAB0])

/-- C6: for a scenario label absent from the dictionary, every report year's
result cell for that scenario is written with `None` (cleared), never left
with the template's prior content. -/
theorem absent_scenario_cells_cleared (cd : CalcData) (lab : ScenLabel)
    (y : ℤ) (habs : scenResults cd lab = Option.none)
    (hy : y ∈ cd.parameters.report_years) :
    ∃ ws rr, create_plan_excel cd true = some ws ∧
      rowForYear cd.parameters.report_years y = some rr ∧
      finalCell ws ⟨scenCol lab, rr⟩ = some XVal.empty := by
  obtain ⟨rr, hr, hge⟩ := rowForYear_eq_some _ y hy
  refine ⟨_, rr, rfl, hr, ?_⟩
  have hmem : ((⟨scenCol lab, rr⟩ : CellRef), XVal.empty) ∈
      gridCellWrites cd cd.parameters.report_years := by
    have hgm := gridWrite_mem cd cd.parameters.report_years y rr lab hy hr
    rw [habs] at hgm
    simpa [gridVal] using hgm
  unfold finalCell
  rw [List.reverse_append, List.find?_append]
  rcases hf : (gridCellWrites cd cd.parameters.report_years).reverse.find?
      (fun p => p.1 = (⟨scenCol lab, rr⟩ : CellRef)) with _ | z
  · exfalso
    rw [List.find?_eq_none] at hf
    exact hf _ (List.mem_reverse.mpr hmem) (by simp)
  · have hzmem := List.mem_reverse.mp (List.mem_of_find?_eq_some hf)
    have hz1 : z.1 = (⟨scenCol lab, rr⟩ : CellRef) := by
      have := List.find?_some hf
      simpa using this
    obtain ⟨y', lab', rr', hy', hr', hweq⟩ :=
      gridWrite_shape _ _ _ hzmem
    have hcol : scenCol lab' = scenCol lab := by
      rw [hweq] at hz1
      exact congrArg CellRef.col hz1
    have hlab : lab' = lab := scenCol_injective _ _ hcol
    have hzval : z.2 = XVal.empty := by
      rw [hweq, hlab, habs]
      rfl
    rw [hf]
    simp [hzval]

/-- Witness for C6: scenario A is absent from `ssAB0` and year 10 is in the
report-year list. -/
theorem absent_scenario_cells_cleared_witness :
    ∃ ws rr, create_plan_excel ssAB0 true = some ws ∧
      rowForYear ssAB0.parameters.report_years 10 = some rr ∧
      finalCell ws ⟨scenCol ScenLabel.planA, rr⟩ = some XVal.empty :=
  absent_scenario_cells_cleared ssAB0 ScenLabel.planA 10 rfl (by decide)

end Trust
